import Mathlib

/-!
# Verification of the e-commerce analytics pipeline

A shallow embedding of the data-loading and metrics code of the
`claude-data-analysis` repository (`data_loader.py`, `business_metrics.py`,
`app.py`), together with proofs about the claims of its specification.

Modelling conventions:
* A dataframe is a `List` of row structures; a column selection is a row type
  carrying exactly the selected columns.
* Exact numeric columns are `ℚ` (prices) or `ℤ`/`ℕ` (counts, scores).
* Float columns that can hold `NaN`/`inf` are modelled by `PFloat`, an exact
  rational extended with the three IEEE special values (rounding error of
  binary floats is not modelled; the claims under study are about exact
  quantities and the special values).
* A nullable column is an `Option`; pandas `NaT`/`NaN` timestamps are `none`.
* Timestamps are modelled at day granularity as `ℤ` (the code only ever uses
  whole-day differences via `.dt.days`) with their calendar year/month fields
  carried alongside, as pandas derives them with `.dt.year` / `.dt.month`.
-/

/-- IEEE-like scalar: a finite rational or one of the special float values.
Arithmetic below follows IEEE semantics for the cases the embedded code can
reach (positive zero only; rounding of finite values is not modelled). -/
inductive PFloat where
  | fin : ℚ → PFloat
  | inf : PFloat
  | ninf : PFloat
  | nan : PFloat
deriving DecidableEq, Repr

namespace PFloat

/-- IEEE addition on the embedded scalars. -/
def add : PFloat → PFloat → PFloat
  | fin a, fin b => fin (a + b)
  | fin _, inf => inf
  | fin _, ninf => ninf
  | inf, fin _ => inf
  | ninf, fin _ => ninf
  | inf, inf => inf
  | ninf, ninf => ninf
  | inf, ninf => nan
  | ninf, inf => nan
  | nan, _ => nan
  | _, nan => nan

/-- IEEE subtraction. -/
def sub : PFloat → PFloat → PFloat
  | fin a, fin b => fin (a - b)
  | fin _, inf => ninf
  | fin _, ninf => inf
  | inf, fin _ => inf
  | ninf, fin _ => ninf
  | inf, ninf => inf
  | ninf, inf => ninf
  | inf, inf => nan
  | ninf, ninf => nan
  | nan, _ => nan
  | _, nan => nan

/-- IEEE multiplication. -/
def mul : PFloat → PFloat → PFloat
  | fin a, fin b => fin (a * b)
  | fin a, inf => if a > 0 then inf else if a < 0 then ninf else nan
  | fin a, ninf => if a > 0 then ninf else if a < 0 then inf else nan
  | inf, fin b => if b > 0 then inf else if b < 0 then ninf else nan
  | ninf, fin b => if b > 0 then ninf else if b < 0 then inf else nan
  | inf, inf => inf
  | ninf, ninf => inf
  | inf, ninf => ninf
  | ninf, inf => ninf
  | nan, _ => nan
  | _, nan => nan

/-- IEEE division (positive zero only, as produced by the embedded code). -/
def div : PFloat → PFloat → PFloat
  | fin a, fin b =>
      if b = 0 then (if a > 0 then inf else if a < 0 then ninf else nan)
      else fin (a / b)
  | fin _, inf => fin 0
  | fin _, ninf => fin 0
  | inf, fin b => if b < 0 then ninf else inf
  | ninf, fin b => if b < 0 then inf else ninf
  | inf, inf => nan
  | inf, ninf => nan
  | ninf, inf => nan
  | ninf, ninf => nan
  | nan, _ => nan
  | _, nan => nan

/-- Sum of a float column (as produced by arithmetic on a result column;
pandas' `sum` over the base data never sees specials here). -/
def listSum (l : List PFloat) : PFloat := l.foldr add (fin 0)

end PFloat

/-- Round-half-even to an integer, the rounding used by `numpy.round` and
Python's builtin `round` (ties go to the even integer). -/
def rne (q : ℚ) : ℤ :=
  let f := ⌊q⌋
  let r := q - f
  if r < 1/2 then f
  else if r > 1/2 then f + 1
  else if f % 2 = 0 then f else f + 1

/-- Embedding of `round(x, 2)` / `.round(2)`: round-half-even at two decimal places. -/
def round2 (q : ℚ) : ℚ := (rne (q * 100) : ℚ) / 100

/-- Embedding of `.round(3)`: round-half-even at three decimal places. -/
def round3 (q : ℚ) : ℚ := (rne (q * 1000) : ℚ) / 1000

/-- Embedding of `.round(2)` lifted to float scalars (`np.round` of `±inf`/`nan` is itself). -/
def pfRound2 : PFloat → PFloat
  | .fin q => .fin (round2 q)
  | .inf => .inf
  | .ninf => .ninf
  | .nan => .nan

/-- pandas `drop_duplicates`: keep the first occurrence of each value. -/
def dropDup [DecidableEq α] : List α → List α
  | [] => []
  | a :: l => a :: dropDup (l.filter (fun b => b ≠ a))
termination_by l => l.length
decreasing_by
  simp only [List.length_cons]
  exact Nat.lt_succ_of_le (List.length_filter_le _ _)

/-- pandas `Series.nunique`: number of distinct values. -/
def nunique [DecidableEq α] (l : List α) : ℕ := (dropDup l).length

/-- pandas `groupby` keys: the distinct key values in ascending order
(`groupby` sorts its keys by default). -/
def groupKeys [DecidableEq α] [LinearOrder α] (l : List α) : List α :=
  List.insertionSort (· ≤ ·) (dropDup l)

/-- Mean of a rational column: `NaN` on an empty column, as in pandas. -/
def meanQ (l : List ℚ) : PFloat :=
  if l = [] then PFloat.nan else PFloat.fin (l.sum / l.length)

/-- Mean of an integer column (review scores): `NaN` when empty. -/
def meanZ (l : List ℤ) : PFloat :=
  if l = [] then PFloat.nan else PFloat.fin ((l.sum : ℚ) / l.length)

/-! ## Basic lemmas about the dataframe helpers -/

theorem mem_dropDup [DecidableEq α] (a : α) (l : List α) :
    a ∈ dropDup l ↔ a ∈ l := by
  induction l using dropDup.induct with
  | case1 => simp [dropDup]
  | case2 b l ih =>
    rw [dropDup, List.mem_cons, ih, List.mem_filter]
    by_cases hab : a = b
    · simp [hab]
    · simp [hab]

theorem nodup_dropDup [DecidableEq α] (l : List α) : (dropDup l).Nodup := by
  induction l using dropDup.induct with
  | case1 => simp [dropDup]
  | case2 b l ih =>
    rw [dropDup]
    refine List.nodup_cons.2 ⟨fun hb => ?_, ih⟩
    rw [mem_dropDup, List.mem_filter] at hb
    simp at hb

theorem dropDup_eq_nil_iff [DecidableEq α] (l : List α) :
    dropDup l = [] ↔ l = [] := by
  cases l with
  | nil => simp [dropDup]
  | cons a l => simp [dropDup]

theorem toFinset_dropDup [DecidableEq α] (l : List α) :
    (dropDup l).toFinset = l.toFinset := by
  ext a
  simp [List.mem_toFinset, mem_dropDup]

theorem nunique_eq_card_toFinset [DecidableEq α] (l : List α) :
    nunique l = l.toFinset.card := by
  rw [nunique, ← List.toFinset_card_of_nodup (nodup_dropDup l), toFinset_dropDup]

theorem groupKeys_perm_dropDup [DecidableEq α] [LinearOrder α] (l : List α) :
    (groupKeys l).Perm (dropDup l) :=
  List.perm_insertionSort _ _

theorem mem_groupKeys [DecidableEq α] [LinearOrder α] (a : α) (l : List α) :
    a ∈ groupKeys l ↔ a ∈ l := by
  rw [(groupKeys_perm_dropDup l).mem_iff, mem_dropDup]

theorem groupKeys_nodup [DecidableEq α] [LinearOrder α] (l : List α) : (groupKeys l).Nodup :=
  (groupKeys_perm_dropDup l).nodup_iff.2 (nodup_dropDup l)

theorem groupKeys_eq_nil_iff [DecidableEq α] [LinearOrder α] (l : List α) :
    groupKeys l = [] ↔ l = [] := by
  constructor
  · intro h
    have := (groupKeys_perm_dropDup l).length_eq
    rw [h] at this
    rcases List.length_eq_zero.1 this.symm with h'
    exact (dropDup_eq_nil_iff l).1 h'
  · intro h
    subst h
    simp [groupKeys, dropDup]

theorem sum_map_groupKeys [DecidableEq α] [LinearOrder α] (l : List α) (f : α → ℚ) :
    ((groupKeys l).map f).sum = l.toFinset.sum f := by
  have h2 := List.sum_toFinset f (nodup_dropDup l)
  rw [toFinset_dropDup] at h2
  exact (((groupKeys_perm_dropDup l).map f).sum_eq).trans h2.symm

theorem length_groupKeys [DecidableEq α] [LinearOrder α] (l : List α) :
    (groupKeys l).length = l.toFinset.card := by
  have h2 := List.toFinset_card_of_nodup (nodup_dropDup l)
  rw [toFinset_dropDup] at h2
  exact ((groupKeys_perm_dropDup l).length_eq).trans h2.symm

/-! ## Revenue metrics (`business_metrics.py`, `calculate_revenue_metrics`) -/

/-- A row of the denormalized sales view as consumed by the revenue and
monthly-trend metrics: one line item with its order id, item price and the
purchase month derived by the loader. -/
structure SalesRow where
  order_id : ℕ
  price : ℚ
  month : ℕ
deriving DecidableEq, Repr

/-- Embedding of `sales_data['price'].sum()` -/
def total_revenue (sales_data : List SalesRow) : ℚ :=
  (sales_data.map SalesRow.price).sum

/-- Embedding of `sales_data['order_id'].nunique()` -/
def total_orders (sales_data : List SalesRow) : ℕ :=
  nunique (sales_data.map SalesRow.order_id)

/-- Embedding of `sales_data.groupby('order_id')['price'].sum()`: the per-order price
sums, one per distinct order id (in ascending key order, as groupby sorts). -/
def orderPriceSums (sales_data : List SalesRow) : List ℚ :=
  (groupKeys (sales_data.map SalesRow.order_id)).map
    (fun oid => ((sales_data.filter (fun r => r.order_id = oid)).map SalesRow.price).sum)

/-- Embedding of `sales_data.groupby('order_id')['price'].sum().mean()` -/
def average_order_value (sales_data : List SalesRow) : PFloat :=
  meanQ (orderPriceSums sales_data)

/-- Embedding of `sales_data['price'].mean()` -/
def average_item_price (sales_data : List SalesRow) : PFloat :=
  meanQ (sales_data.map SalesRow.price)

/-- The current-period entries of the dict built by `calculate_revenue_metrics`. -/
structure RevenueMetrics where
  total_revenue : ℚ
  total_orders : ℕ
  total_items : ℕ
  average_order_value : PFloat
  average_item_price : PFloat
deriving DecidableEq, Repr

/-- Embedding of `calculate_revenue_metrics(sales_data)` without a comparison table. -/
def calculate_revenue_metrics (sales_data : List SalesRow) : RevenueMetrics :=
  { total_revenue := total_revenue sales_data
    total_orders := total_orders sales_data
    total_items := sales_data.length
    average_order_value := average_order_value sales_data
    average_item_price := average_item_price sales_data }

/-- Modelled from the spec's words, for comparison with the code: "total
orders = count of distinct order_id values". -/
def specTotalOrders (sales_data : List SalesRow) : ℕ :=
  (sales_data.map SalesRow.order_id).toFinset.card

/-- Modelled from the spec's words, for comparison with the code: "average
order value = mean of per-order price sums", the mean taken over the set of
distinct orders (undefined on an empty table). -/
def specAverageOrderValue (sales_data : List SalesRow) : PFloat :=
  let orders := (sales_data.map SalesRow.order_id).toFinset
  if orders = ∅ then PFloat.nan
  else PFloat.fin
    ((orders.sum fun oid =>
        ((sales_data.filter (fun r => r.order_id = oid)).map SalesRow.price).sum) /
      orders.card)

theorem average_order_value_eq_spec (sd : List SalesRow) :
    average_order_value sd = specAverageOrderValue sd := by
  unfold average_order_value specAverageOrderValue orderPriceSums meanQ
  by_cases h : sd.map SalesRow.order_id = []
  · rw [h]
    have hg : groupKeys ([] : List ℕ) = [] := (groupKeys_eq_nil_iff []).2 rfl
    rw [hg]
    simp
  · have hg : groupKeys (sd.map SalesRow.order_id) ≠ [] :=
      fun hc => h ((groupKeys_eq_nil_iff _).1 hc)
    have hmap : (groupKeys (sd.map SalesRow.order_id)).map
        (fun oid => ((sd.filter (fun r => r.order_id = oid)).map SalesRow.price).sum) ≠ [] := by
      simpa [List.map_eq_nil_iff] using hg
    have hfin : (sd.map SalesRow.order_id).toFinset ≠ ∅ := by
      rw [Ne, List.toFinset_eq_empty_iff]
      exact h
    rw [if_neg hmap, if_neg hfin]
    congr 1
    rw [List.length_map, sum_map_groupKeys, length_groupKeys]

/-- The end-to-end example table of the spec: order 1 has items priced 10
and 20 (purchased in month 1), order 2 has one item priced 30 (month 2). -/
def exampleSales : List SalesRow :=
  [⟨1, 10, 1⟩, ⟨1, 20, 1⟩, ⟨2, 30, 2⟩]

/-- C1: for every sales table, `calculate_revenue_metrics` returns
total_revenue = sum of price over line items, total_orders = number of
distinct order ids, average_order_value = mean of per-order price sums and
average_item_price = mean item price; on the example table (order 1: items
10 and 20, order 2: item 30) it returns total_revenue 60, total_orders 2,
average_order_value 30 and average_item_price 20. -/
theorem calculate_revenue_metrics_correct :
    (∀ sales_data : List SalesRow,
        (calculate_revenue_metrics sales_data).total_revenue
            = (sales_data.map SalesRow.price).sum
          ∧ (calculate_revenue_metrics sales_data).total_orders = specTotalOrders sales_data
          ∧ (calculate_revenue_metrics sales_data).average_order_value
              = specAverageOrderValue sales_data
          ∧ (calculate_revenue_metrics sales_data).average_item_price
              = meanQ (sales_data.map SalesRow.price))
      ∧ calculate_revenue_metrics exampleSales =
          { total_revenue := 60, total_orders := 2, total_items := 3,
            average_order_value := .fin 30, average_item_price := .fin 20 } := by
  constructor
  · intro sd
    refine ⟨rfl, ?_, average_order_value_eq_spec sd, rfl⟩
    exact nunique_eq_card_toFinset _
  · norm_num [calculate_revenue_metrics, exampleSales, total_revenue, total_orders,
      average_order_value, average_item_price, orderPriceSums, meanQ, nunique, dropDup,
      groupKeys, List.insertionSort, List.orderedInsert]
    exact ⟨fun h => by simp at h, fun h => by simp at h⟩

/-! ## Comparison-period growth rates (`calculate_revenue_metrics` with
`comparison_data`) -/

/-- The additional entries the comparison branch adds to the metrics dict. -/
structure RevenueComparisonMetrics where
  base : RevenueMetrics
  revenue_growth_rate : PFloat
  order_growth_rate : ℚ
  aov_growth_rate : PFloat
  previous_revenue : ℚ
  previous_orders : ℕ
  previous_aov : PFloat
deriving DecidableEq, Repr

/-- Embedding of `calculate_revenue_metrics(sales_data, comparison_data)`.  The previous
period revenue/orders/AOV are computed, then the three growth-rate lines run
in source order.  Revenue and AOV growth divide numpy floats, where a zero
divisor silently yields `inf`/`-inf`/`nan`; the order counts are Python
ints, so a zero previous order count raises `ZeroDivisionError`, modelled
as `Except.error`. -/
def calculate_revenue_metrics_with_comparison (sales_data comparison_data : List SalesRow) :
    Except String RevenueComparisonMetrics :=
  let m := calculate_revenue_metrics sales_data
  let prev_revenue := total_revenue comparison_data
  let prev_orders := total_orders comparison_data
  let prev_aov := average_order_value comparison_data
  let revenue_growth := PFloat.mul
    (PFloat.div (PFloat.fin (m.total_revenue - prev_revenue)) (PFloat.fin prev_revenue))
    (PFloat.fin 100)
  if prev_orders = 0 then
    Except.error "ZeroDivisionError: division by zero"
  else
    Except.ok
      { base := m
        revenue_growth_rate := revenue_growth
        order_growth_rate := (((m.total_orders : ℚ) - (prev_orders : ℚ)) / (prev_orders : ℚ)) * 100
        aov_growth_rate := PFloat.mul
          (PFloat.div (PFloat.sub m.average_order_value prev_aov) prev_aov) (PFloat.fin 100)
        previous_revenue := prev_revenue
        previous_orders := prev_orders
        previous_aov := prev_aov }

/-- C5 counterexample: on a comparison table with no orders (here: the empty
table, whose revenue and distinct-order count are both zero), the
computation raises an uncaught `ZeroDivisionError` instead of reporting the
growth rates as an explicit undefined value. -/
theorem revenue_growth_zero_denominator_counterexample :
    calculate_revenue_metrics_with_comparison [⟨1, 10, 1⟩] [] =
      Except.error "ZeroDivisionError: division by zero" := by
  simp [calculate_revenue_metrics_with_comparison, total_orders, nunique, dropDup]

/-- C5 amended: `calculate_revenue_metrics` does not explicitly handle zero
denominators in the comparison branch.  A comparison table with zero
distinct orders makes the order-growth line raise `ZeroDivisionError`, and
when the previous order count is nonzero but the previous revenue is zero,
the revenue growth rate is silently one of the IEEE special values
`inf`/`-inf`/`nan` produced by float division by zero. -/
theorem revenue_growth_zero_denominator_behavior (cur prev : List SalesRow) :
    (total_orders prev = 0 →
        calculate_revenue_metrics_with_comparison cur prev =
          Except.error "ZeroDivisionError: division by zero")
      ∧ (∀ r, calculate_revenue_metrics_with_comparison cur prev = Except.ok r →
          total_revenue prev = 0 →
          r.revenue_growth_rate = PFloat.inf ∨ r.revenue_growth_rate = PFloat.ninf ∨
            r.revenue_growth_rate = PFloat.nan) := by
  constructor
  · intro h0
    simp [calculate_revenue_metrics_with_comparison, h0]
  · intro r h hrev
    by_cases h0 : total_orders prev = 0
    · simp [calculate_revenue_metrics_with_comparison, h0] at h
    · simp only [calculate_revenue_metrics_with_comparison, if_neg h0, Except.ok.injEq] at h
      subst h
      simp only [calculate_revenue_metrics, hrev]
      rcases lt_trichotomy (total_revenue cur) 0 with hc | hc | hc
      · right; left
        simp [PFloat.div, PFloat.mul, hc, not_lt.2 hc.le, hc.not_lt]
      · right; right
        simp [PFloat.div, PFloat.mul, hc]
      · left
        simp [PFloat.div, PFloat.mul, hc, hc.not_lt]

/-- C5 witness for the amended theorem: the empty comparison table has zero
orders, and the computation errors on it. -/
theorem revenue_growth_zero_denominator_witness :
    calculate_revenue_metrics_with_comparison exampleSales [] =
      Except.error "ZeroDivisionError: division by zero" :=
  (revenue_growth_zero_denominator_behavior exampleSales []).1
    (by simp [total_orders, nunique, dropDup])

/-! ## Net Promoter Score (`business_metrics.py`, `_calculate_nps`) -/

/-- Embedding of `_calculate_nps(scores)`: double each 1–5 review score onto the 0–10
scale, count promoters (doubled score ≥ 9) and detractors (doubled score
≤ 6), and return `(promoters - detractors) / total * 100` rounded to two
decimals (a float; on an empty series the division yields `nan`). -/
def calculate_nps (scores : List ℤ) : PFloat :=
  let nps_scores := scores.map (fun s => s * 2)
  let promoters := nps_scores.countP (fun s => 9 ≤ s)
  let detractors := nps_scores.countP (fun s => s ≤ 6)
  let total := nps_scores.length
  pfRound2 (PFloat.mul
    (PFloat.div (PFloat.fin ((promoters : ℚ) - (detractors : ℚ))) (PFloat.fin (total : ℚ)))
    (PFloat.fin 100))

theorem round2_intCast (z : ℤ) : round2 (z : ℚ) = z := by
  have h : ((z : ℚ) * 100) = ((z * 100 : ℤ) : ℚ) := by push_cast; ring
  simp only [round2, rne, h, Int.floor_intCast, sub_self]
  norm_num

/-- C2: on a non-empty series of integer scores in 1–5, `_calculate_nps`
counts promoters exactly as the scores equal to 5 and detractors exactly as
the scores ≤ 3, returning `(promoters - detractors) / total * 100` rounded
to 2 decimals; all-5-star input gives 100, all-1-star gives -100 and
all-4-star gives 0. -/
theorem calculate_nps_spec (l : List ℤ) (hne : l ≠ []) (hb : ∀ s ∈ l, 1 ≤ s ∧ s ≤ 5) :
    calculate_nps l =
        PFloat.fin (round2 ((((l.countP (fun s => s = 5) : ℚ) -
          (l.countP (fun s => s ≤ 3) : ℚ)) / (l.length : ℚ)) * 100))
      ∧ ((∀ s ∈ l, s = 5) → calculate_nps l = PFloat.fin 100)
      ∧ ((∀ s ∈ l, s = 1) → calculate_nps l = PFloat.fin (-100))
      ∧ ((∀ s ∈ l, s = 4) → calculate_nps l = PFloat.fin 0) := by
  have h0 : l.length ≠ 0 := fun h => hne (List.length_eq_zero.1 h)
  have hlen : ((l.length : ℚ)) ≠ 0 := Nat.cast_ne_zero.2 h0
  have hprom : (l.map (fun s => s * 2)).countP (fun s => 9 ≤ s) =
      l.countP (fun s => s = 5) := by
    rw [List.countP_map]
    refine List.countP_congr fun a ha => ?_
    have h := hb a ha
    simp only [Function.comp, decide_eq_true_eq]
    omega
  have hdet : (l.map (fun s => s * 2)).countP (fun s => s ≤ 6) =
      l.countP (fun s => s ≤ 3) := by
    rw [List.countP_map]
    refine List.countP_congr fun a ha => ?_
    have h := hb a ha
    simp only [Function.comp, decide_eq_true_eq]
    omega
  have hmain : calculate_nps l =
      PFloat.fin (round2 ((((l.countP (fun s => s = 5) : ℚ) -
        (l.countP (fun s => s ≤ 3) : ℚ)) / (l.length : ℚ)) * 100)) := by
    simp only [calculate_nps, hprom, hdet, List.length_map]
    rw [PFloat.div, if_neg hlen]
    rw [PFloat.mul, pfRound2]
  refine ⟨hmain, ?_, ?_, ?_⟩
  · intro h5
    have hp : l.countP (fun s => s = 5) = l.length :=
      List.countP_eq_length.2 (by intro a ha; simpa using h5 a ha)
    have hd : l.countP (fun s => s ≤ 3) = 0 :=
      List.countP_eq_zero.2 (by intro a ha; have := h5 a ha; simp [this])
    rw [hmain, hp, hd]
    have harg : (((l.length : ℚ) - (0 : ℕ)) / (l.length : ℚ)) * 100 = ((100 : ℤ) : ℚ) := by
      push_cast
      field_simp
    rw [harg, round2_intCast]
    norm_num
  · intro h1
    have hp : l.countP (fun s => s = 5) = 0 :=
      List.countP_eq_zero.2 (by intro a ha; have := h1 a ha; simp [this])
    have hd : l.countP (fun s => s ≤ 3) = l.length :=
      List.countP_eq_length.2 (by intro a ha; have := h1 a ha; simp [this])
    rw [hmain, hp, hd]
    have harg : ((((0 : ℕ) : ℚ) - (l.length : ℚ)) / (l.length : ℚ)) * 100 = ((-100 : ℤ) : ℚ) := by
      push_cast
      field_simp
    rw [harg, round2_intCast]
    norm_num
  · intro h4
    have hp : l.countP (fun s => s = 5) = 0 :=
      List.countP_eq_zero.2 (by intro a ha; have := h4 a ha; simp [this])
    have hd : l.countP (fun s => s ≤ 3) = 0 :=
      List.countP_eq_zero.2 (by intro a ha; have := h4 a ha; simp [this])
    rw [hmain, hp, hd]
    have harg : ((((0 : ℕ) : ℚ) - ((0 : ℕ) : ℚ)) / (l.length : ℚ)) * 100 = ((0 : ℤ) : ℚ) := by
      push_cast
      field_simp
    rw [harg, round2_intCast]
    norm_num

/-- C2 witness: the singleton all-5-star series has NPS 100. -/
theorem calculate_nps_witness : calculate_nps [5] = PFloat.fin 100 :=
  (calculate_nps_spec [5] (by simp) (by decide)).2.1 (by decide)

/-! ## Delivery metrics on the sales view (`data_loader.py`,
`add_delivery_metrics`) -/

/-- A sales row as fed to `add_delivery_metrics`: purchase timestamp and
(possibly missing) customer-delivery timestamp, at day granularity. -/
structure SalesTimedRow where
  order_id : ℕ
  price : ℚ
  order_purchase_timestamp : ℤ
  order_delivered_customer_date : Option ℤ
deriving DecidableEq, Repr

/-- A row of the output of `add_delivery_metrics`. -/
structure SalesDeliveryRow where
  order_id : ℕ
  price : ℚ
  order_purchase_timestamp : ℤ
  order_delivered_customer_date : Option ℤ
  delivery_speed : Option ℤ
  delivery_category : String
deriving DecidableEq, Repr

/-- Embedding of `categorize_delivery_speed(days)`, the inner helper of
`add_delivery_metrics` (`pd.isna(days)` is the `none` case). -/
def categorize_delivery_speed : Option ℤ → String
  | none => "Unknown"
  | some days => if days ≤ 3 then "1-3 days" else if days ≤ 7 then "4-7 days" else "8+ days"

/-- Embedding of `add_delivery_metrics(sales_data)`: on a copy of the input, add
`delivery_speed` = whole days between purchase and customer delivery
(missing when the delivery date is missing, never defaulted) and the
`delivery_category` bucket. -/
def add_delivery_metrics (sales_data : List SalesTimedRow) : List SalesDeliveryRow :=
  sales_data.map fun r =>
    let speed := r.order_delivered_customer_date.map (fun d => d - r.order_purchase_timestamp)
    { order_id := r.order_id
      price := r.price
      order_purchase_timestamp := r.order_purchase_timestamp
      order_delivered_customer_date := r.order_delivered_customer_date
      delivery_speed := speed
      delivery_category := categorize_delivery_speed speed }

/-- C3: `add_delivery_metrics` never drops a row, and on every output row
the category is "1-3 days" exactly for a known speed ≤ 3, "4-7 days"
exactly for a known speed in (3,7], "8+ days" exactly for a known speed
> 7, and "Unknown" exactly when the delivery date (hence the speed) is
missing; in particular speeds 3, 7 and 8 fall in the first, second and
third bucket. -/
theorem add_delivery_metrics_correct (rows : List SalesTimedRow) :
    (add_delivery_metrics rows).length = rows.length
      ∧ (∀ r ∈ add_delivery_metrics rows,
          (r.delivery_category = "1-3 days" ↔ ∃ s, r.delivery_speed = some s ∧ s ≤ 3)
          ∧ (r.delivery_category = "4-7 days" ↔
              ∃ s, r.delivery_speed = some s ∧ 3 < s ∧ s ≤ 7)
          ∧ (r.delivery_category = "8+ days" ↔ ∃ s, r.delivery_speed = some s ∧ 7 < s)
          ∧ (r.delivery_category = "Unknown" ↔ r.delivery_speed = none))
      ∧ categorize_delivery_speed (some 3) = "1-3 days"
      ∧ categorize_delivery_speed (some 7) = "4-7 days"
      ∧ categorize_delivery_speed (some 8) = "8+ days"
      ∧ categorize_delivery_speed none = "Unknown" := by
  refine ⟨List.length_map _ _, ?_, rfl, rfl, rfl, rfl⟩
  intro r hr
  simp only [add_delivery_metrics, List.mem_map] at hr
  rcases hr with ⟨a, ha, rfl⟩
  rcases hd : a.order_delivered_customer_date with _ | d
  · simp [categorize_delivery_speed, hd]
  · simp only [hd, Option.map_some']
    by_cases h3 : d - a.order_purchase_timestamp ≤ 3
    · simp [categorize_delivery_speed, h3]
      omega
    · by_cases h7 : d - a.order_purchase_timestamp ≤ 7
      · simp [categorize_delivery_speed, h3, h7]
        omega
      · simp [categorize_delivery_speed, h3, h7]
        omega

/-- The output row produced for a single undelivered line item. -/
def unknownDeliveryRow : SalesDeliveryRow :=
  { order_id := 1
    price := 10
    order_purchase_timestamp := 0
    order_delivered_customer_date := none
    delivery_speed := none
    delivery_category := "Unknown" }

/-- C3 witness: a single row with a missing delivery date survives into the
output and is categorized "Unknown" with a missing (not zeroed) speed. -/
theorem add_delivery_metrics_witness :
    (add_delivery_metrics [⟨1, 10, 0, none⟩]).length = 1
      ∧ (unknownDeliveryRow.delivery_category = "Unknown"
          ↔ unknownDeliveryRow.delivery_speed = none) :=
  ⟨(add_delivery_metrics_correct [⟨1, 10, 0, none⟩]).1,
    ((add_delivery_metrics_correct [⟨1, 10, 0, none⟩]).2.1 unknownDeliveryRow
      (by simp [add_delivery_metrics, categorize_delivery_speed, unknownDeliveryRow])).2.2.2⟩

/-! ## Customer satisfaction (`business_metrics.py`,
`calculate_customer_satisfaction`) -/

/-- The `[['order_id', 'review_score']]` projection of a sales-with-reviews
view: one row per line item carrying the order's review score. -/
structure ReviewRow where
  order_id : ℕ
  review_score : ℤ
deriving DecidableEq, Repr

/-- The dict built by `calculate_customer_satisfaction`. -/
structure SatisfactionMetrics where
  average_rating : PFloat
  total_reviews : ℕ
  rating_distribution : List (ℤ × ℕ)
  satisfaction_rate : PFloat
  nps_score : PFloat
deriving DecidableEq, Repr

/-- Embedding of `calculate_customer_satisfaction(sales_with_reviews)`: deduplicate the
(order_id, review_score) pairs, then aggregate.  `rating_distribution` is
`value_counts().sort_index()` (score, count) pairs; `satisfaction_rate`
is the share of scores ≥ 4 (`nan` on an empty view, as a pandas mean). -/
def calculate_customer_satisfaction (sales_with_reviews : List ReviewRow) :
    SatisfactionMetrics :=
  let unique_orders := dropDup sales_with_reviews
  { average_rating := meanZ (unique_orders.map ReviewRow.review_score)
    total_reviews := unique_orders.length
    rating_distribution := (groupKeys (unique_orders.map ReviewRow.review_score)).map
      (fun v => (v, (unique_orders.map ReviewRow.review_score).count v))
    satisfaction_rate := if unique_orders = [] then PFloat.nan
      else PFloat.fin ((((unique_orders.filter (fun r => 4 ≤ r.review_score)).length : ℚ) /
        (unique_orders.length : ℚ)) * 100)
    nps_score := calculate_nps (unique_orders.map ReviewRow.review_score) }

/-- Duplicate the i-th row of a table `k i` times (an arbitrary per-row
replication of a view). -/
def replicateEach (k : ℕ → ℕ) : List α → List α
  | [] => []
  | a :: l => List.replicate (k 0) a ++ replicateEach (fun i => k (i + 1)) l

theorem mem_replicateEach {k : ℕ → ℕ} (hk : ∀ i, 0 < k i) (x : α) :
    ∀ l : List α, (x ∈ replicateEach k l ↔ x ∈ l) := by
  intro l
  induction l generalizing k with
  | nil => simp [replicateEach]
  | cons a l ih =>
    simp only [replicateEach, List.mem_append, List.mem_replicate, List.mem_cons]
    rw [ih (fun i => hk (i + 1))]
    constructor
    · rintro (⟨-, h⟩ | h)
      · exact Or.inl h
      · exact Or.inr h
    · rintro (h | h)
      · exact Or.inl ⟨(hk 0).ne', h⟩
      · exact Or.inr h

theorem meanZ_congr_perm {l₁ l₂ : List ℤ} (h : l₁.Perm l₂) : meanZ l₁ = meanZ l₂ := by
  unfold meanZ
  by_cases h1 : l₁ = []
  · subst h1
    rw [h.symm.eq_nil]
  · have h2 : l₂ ≠ [] := fun hh => h1 (by subst hh; exact h.eq_nil)
    rw [if_neg h1, if_neg h2, h.sum_eq, h.length_eq]

theorem dropDup_perm_of_mem_iff [DecidableEq α] {l₁ l₂ : List α}
    (h : ∀ x, x ∈ l₁ ↔ x ∈ l₂) : (dropDup l₁).Perm (dropDup l₂) :=
  (List.perm_ext_iff_of_nodup (nodup_dropDup l₁) (nodup_dropDup l₂)).2
    (fun a => (mem_dropDup a l₁).trans ((h a).trans (mem_dropDup a l₂).symm))

/-- C4: replicating each (order_id, review_score) row of a review view any
positive number of times leaves `average_rating` and `total_reviews` of
`calculate_customer_satisfaction` identical to those of the deduplicated
view, because the function deduplicates before aggregating. -/
theorem customer_satisfaction_dedup_idempotent (rows : List ReviewRow) (k : ℕ → ℕ)
    (hk : ∀ i, 0 < k i) :
    (calculate_customer_satisfaction (replicateEach k rows)).average_rating
        = (calculate_customer_satisfaction (dropDup rows)).average_rating
      ∧ (calculate_customer_satisfaction (replicateEach k rows)).total_reviews
        = (calculate_customer_satisfaction (dropDup rows)).total_reviews := by
  have hperm : (dropDup (replicateEach k rows)).Perm (dropDup (dropDup rows)) :=
    dropDup_perm_of_mem_iff fun x =>
      (mem_replicateEach hk x rows).trans (mem_dropDup x rows).symm
  exact ⟨meanZ_congr_perm (hperm.map ReviewRow.review_score), hperm.length_eq⟩

/-- C4 witness: duplicating the single-row view twice changes neither the
average rating nor the review count. -/
theorem customer_satisfaction_dedup_witness :
    (calculate_customer_satisfaction (replicateEach (fun _ => 2) [⟨1, 5⟩])).average_rating
        = (calculate_customer_satisfaction (dropDup [⟨1, 5⟩])).average_rating
      ∧ (calculate_customer_satisfaction (replicateEach (fun _ => 2) [⟨1, 5⟩])).total_reviews
        = (calculate_customer_satisfaction (dropDup [⟨1, 5⟩])).total_reviews :=
  customer_satisfaction_dedup_idempotent [⟨1, 5⟩] (fun _ => 2) (fun _ => by norm_num)

/-! ## Monthly trends (`business_metrics.py`, `calculate_monthly_trends`) -/

/-- pandas `pct_change()` with its default forward-fill: each output entry
is current/previous − 1, "previous" being the last non-`nan` value seen;
before any value has been seen the basis is `nan`. -/
def pctChangeFrom (prev : PFloat) : List PFloat → List PFloat
  | [] => []
  | x :: xs =>
      let cur := if x = PFloat.nan then prev else x
      PFloat.sub (PFloat.div cur prev) (PFloat.fin 1) :: pctChangeFrom cur xs

/-- Embedding of `Series.pct_change()`: the first entry has no previous value. -/
def pctChange (l : List PFloat) : List PFloat := pctChangeFrom PFloat.nan l

/-- Embedding of `sales_data.groupby('month')['price'].sum()` at one month key. -/
def monthRevenue (sales_data : List SalesRow) (m : ℕ) : ℚ :=
  ((sales_data.filter (fun r => r.month = m)).map SalesRow.price).sum

/-- Embedding of `sales_data.groupby('month')['order_id'].nunique()` at one month key. -/
def monthOrders (sales_data : List SalesRow) (m : ℕ) : ℕ :=
  nunique ((sales_data.filter (fun r => r.month = m)).map SalesRow.order_id)

/-- The columns of the dataframe returned by `calculate_monthly_trends`. -/
structure MonthlyTrends where
  month : List ℕ
  revenue : List ℚ
  orders : List ℕ
  aov : List PFloat
  revenue_growth : List PFloat
  order_growth : List PFloat
  aov_growth : List PFloat
deriving DecidableEq, Repr

/-- Embedding of `calculate_monthly_trends(sales_data)`.  The `aov` column is assigned
from a month-indexed series onto the positionally indexed frame
(`monthly_metrics['aov'] = ...sum() / ...nunique()` after `reset_index()`),
so position `j` receives the AOV of month `j` when `j` occurs as a month
key and `NaN` otherwise — pandas index alignment.  The three growth columns
are `pct_change() * 100`. -/
def calculate_monthly_trends (sales_data : List SalesRow) : MonthlyTrends :=
  let months := groupKeys (sales_data.map SalesRow.month)
  let revenue := months.map (monthRevenue sales_data)
  let orders := months.map (monthOrders sales_data)
  let aov := (List.range months.length).map fun j =>
    if j ∈ months then
      PFloat.fin (monthRevenue sales_data j / (monthOrders sales_data j : ℚ))
    else PFloat.nan
  { month := months
    revenue := revenue
    orders := orders
    aov := aov
    revenue_growth :=
      (pctChange (revenue.map PFloat.fin)).map (fun x => PFloat.mul x (PFloat.fin 100))
    order_growth :=
      (pctChange (orders.map (fun (n : ℕ) => PFloat.fin (n : ℚ)))).map
        (fun x => PFloat.mul x (PFloat.fin 100))
    aov_growth := (pctChange aov).map (fun x => PFloat.mul x (PFloat.fin 100)) }

theorem div_nan (x : PFloat) : PFloat.div x PFloat.nan = PFloat.nan := by
  cases x <;> rfl

theorem pctChange_cons (x : PFloat) (xs : List PFloat) :
    pctChange (x :: xs) =
      PFloat.nan :: pctChangeFrom (if x = PFloat.nan then PFloat.nan else x) xs := by
  simp [pctChange, pctChangeFrom, div_nan, PFloat.sub]

theorem pctChange_head (l : List PFloat) (h : l ≠ []) :
    (pctChange l).head? = some PFloat.nan := by
  cases l with
  | nil => exact absurd rfl h
  | cons x xs => rw [pctChange_cons]; rfl

theorem dropDup_const [DecidableEq α] (m : α) (l : List α) (hne : l ≠ [])
    (hall : ∀ x ∈ l, x = m) : dropDup l = [m] := by
  cases l with
  | nil => exact absurd rfl hne
  | cons a l =>
    rw [dropDup]
    have ha : a = m := hall a (by simp)
    have hf : l.filter (fun b => b ≠ a) = [] := by
      rw [List.filter_eq_nil]
      intro x hx
      have := hall x (by simp [hx])
      simp [this, ha]
    rw [hf, ha]
    simp [dropDup]

theorem growth_column_head (l : List PFloat) (h : l ≠ []) :
    ((pctChange l).map (fun x => PFloat.mul x (PFloat.fin 100))).head? = some PFloat.nan := by
  cases l with
  | nil => exact absurd rfl h
  | cons x xs => rw [pctChange_cons]; rfl

/-- C6: on any non-empty sales table the first month's revenue, order and
AOV growth values are the undefined marker `NaN` (not zero, not an error),
and on a single-month table each growth column is exactly `[NaN]`. -/
theorem monthly_trends_first_month_growth_undefined (sales_data : List SalesRow)
    (h : sales_data ≠ []) :
    (calculate_monthly_trends sales_data).revenue_growth.head? = some PFloat.nan
      ∧ (calculate_monthly_trends sales_data).order_growth.head? = some PFloat.nan
      ∧ (calculate_monthly_trends sales_data).aov_growth.head? = some PFloat.nan
      ∧ ∀ m, (∀ r ∈ sales_data, r.month = m) →
          (calculate_monthly_trends sales_data).revenue_growth = [PFloat.nan]
            ∧ (calculate_monthly_trends sales_data).order_growth = [PFloat.nan]
            ∧ (calculate_monthly_trends sales_data).aov_growth = [PFloat.nan] := by
  have hmap : sales_data.map SalesRow.month ≠ [] := by
    simpa [List.map_eq_nil_iff] using h
  have hmonths : groupKeys (sales_data.map SalesRow.month) ≠ [] := fun hc =>
    hmap ((groupKeys_eq_nil_iff _).1 hc)
  refine ⟨?_, ?_, ?_, ?_⟩
  · refine growth_column_head _ fun hc => hmonths ?_
    simp only [List.map_eq_nil_iff] at hc
    exact hc
  · refine growth_column_head _ fun hc => hmonths ?_
    simp only [List.map_eq_nil_iff] at hc
    exact hc
  · refine growth_column_head _ fun hc => hmonths ?_
    simp only [List.map_eq_nil_iff, List.range_eq_nil] at hc
    exact List.length_eq_zero.1 hc
  · intro m hall
    have hdd : dropDup (sales_data.map SalesRow.month) = [m] := by
      refine dropDup_const m _ hmap ?_
      intro x hx
      rcases List.mem_map.1 hx with ⟨r, hr, rfl⟩
      exact hall r hr
    have hm : groupKeys (sales_data.map SalesRow.month) = [m] := by
      rw [groupKeys, hdd]
      simp [List.insertionSort, List.orderedInsert]
    refine ⟨?_, ?_, ?_⟩ <;>
      simp [calculate_monthly_trends, hm, pctChange_cons, pctChangeFrom, PFloat.mul,
        List.range_succ]

/-- C6 witness: a table covering only month 1 yields `[NaN]` for all three
growth columns. -/
theorem monthly_trends_witness :
    (calculate_monthly_trends [⟨1, 10, 1⟩, ⟨1, 20, 1⟩]).revenue_growth = [PFloat.nan]
      ∧ (calculate_monthly_trends [⟨1, 10, 1⟩, ⟨1, 20, 1⟩]).order_growth = [PFloat.nan]
      ∧ (calculate_monthly_trends [⟨1, 10, 1⟩, ⟨1, 20, 1⟩]).aov_growth = [PFloat.nan] :=
  (monthly_trends_first_month_growth_undefined [⟨1, 10, 1⟩, ⟨1, 20, 1⟩] (by simp)).2.2.2 1
    (by
      rintro r hr
      rcases List.mem_cons.1 hr with rfl | hr
      · rfl
      rcases List.mem_cons.1 hr with rfl | hr
      · rfl
      cases hr)

/-! ## Product-category and geographic performance (`business_metrics.py`,
`calculate_product_performance` / `calculate_geographic_performance`).
The key column (category name / state code) is modelled by an arbitrary
linearly ordered type `κ`: pandas sorts group keys (lexicographically for
its string keys), and nothing below depends on which linear order it is. -/

/-- A row of the sales-with-categories view: category key, item price,
order id (`get_product_categories_data` projection). -/
structure CategoryRow (κ : Type) where
  product_category_name : κ
  price : ℚ
  order_id : ℕ
deriving DecidableEq, Repr

/-- A row of `calculate_product_performance`'s output. -/
structure CategoryPerfRow (κ : Type) where
  product_category_name : κ
  total_revenue : ℚ
  avg_price : ℚ
  total_items : ℕ
  unique_orders : ℕ
  revenue_share : PFloat
  items_per_order : ℚ
deriving DecidableEq, Repr

/-- The rows of one category group. -/
def catRows [DecidableEq κ] (rows : List (CategoryRow κ)) (c : κ) : List (CategoryRow κ) :=
  rows.filter (fun r => r.product_category_name = c)

/-- The per-category `price` sum after the `.round(2)` applied to the
aggregated frame. -/
def productTotalRevenue [DecidableEq κ] (rows : List (CategoryRow κ)) (c : κ) : ℚ :=
  round2 (((catRows rows c).map CategoryRow.price).sum)

/-- The grand total `category_metrics['total_revenue'].sum()` used as the
denominator of the revenue share. -/
def productGrandTotal [DecidableEq κ] [LinearOrder κ] (rows : List (CategoryRow κ)) : ℚ :=
  ((groupKeys (rows.map CategoryRow.product_category_name)).map
    (productTotalRevenue rows)).sum

/-- The `total_revenue / total_revenue.sum() * 100` column before its final
`.round(2)` (float division: a zero denominator gives `inf`/`nan`). -/
def productRevenueShareRaw [DecidableEq κ] [LinearOrder κ] (rows : List (CategoryRow κ)) :
    List PFloat :=
  (groupKeys (rows.map CategoryRow.product_category_name)).map fun c =>
    PFloat.mul
      (PFloat.div (PFloat.fin (productTotalRevenue rows c))
        (PFloat.fin (productGrandTotal rows)))
      (PFloat.fin 100)

/-- Embedding of `calculate_product_performance(sales_with_categories)`: group by
category, aggregate (rounded to 2 decimals), add revenue share and
items-per-order, and sort by total revenue descending.  The `avg_price`
and `items_per_order` divisions only ever run on non-empty groups (every
group key occurs in the data). -/
def calculate_product_performance [DecidableEq κ] [LinearOrder κ]
    (sales_with_categories : List (CategoryRow κ)) : List (CategoryPerfRow κ) :=
  let keys := groupKeys (sales_with_categories.map CategoryRow.product_category_name)
  let table := keys.map fun c =>
    let group := catRows sales_with_categories c
    let items := group.length
    let orders := nunique (group.map CategoryRow.order_id)
    { product_category_name := c
      total_revenue := productTotalRevenue sales_with_categories c
      avg_price := round2 ((group.map CategoryRow.price).sum / (items : ℚ))
      total_items := items
      unique_orders := orders
      revenue_share := pfRound2 (PFloat.mul
        (PFloat.div (PFloat.fin (productTotalRevenue sales_with_categories c))
          (PFloat.fin (productGrandTotal sales_with_categories)))
        (PFloat.fin 100))
      items_per_order := round2 ((items : ℚ) / (orders : ℚ)) }
  List.insertionSort (fun a b => b.total_revenue ≤ a.total_revenue) table

/-- A row of the sales-with-states view (`get_customer_geographic_data`
projection). -/
structure GeoRow (κ : Type) where
  order_id : ℕ
  price : ℚ
  customer_id : ℕ
  customer_state : κ
deriving DecidableEq, Repr

/-- A row of `calculate_geographic_performance`'s output. -/
structure StatePerfRow (κ : Type) where
  state : κ
  total_revenue : ℚ
  total_orders : ℕ
  unique_customers : ℕ
  revenue_per_customer : ℚ
  orders_per_customer : ℚ
  revenue_share : PFloat
deriving DecidableEq, Repr

/-- The rows of one state group. -/
def stateRows [DecidableEq κ] (rows : List (GeoRow κ)) (s : κ) : List (GeoRow κ) :=
  rows.filter (fun r => r.customer_state = s)

/-- The per-state `price` sum (not rounded: the geographic aggregation has
no `.round(2)` on the aggregated frame). -/
def stateTotalRevenue [DecidableEq κ] (rows : List (GeoRow κ)) (s : κ) : ℚ :=
  ((stateRows rows s).map GeoRow.price).sum

/-- Embedding of `state_metrics['total_revenue'].sum()`. -/
def stateGrandTotal [DecidableEq κ] [LinearOrder κ] (rows : List (GeoRow κ)) : ℚ :=
  ((groupKeys (rows.map GeoRow.customer_state)).map (stateTotalRevenue rows)).sum

/-- The state revenue-share column before its final `.round(2)`. -/
def stateRevenueShareRaw [DecidableEq κ] [LinearOrder κ] (rows : List (GeoRow κ)) :
    List PFloat :=
  (groupKeys (rows.map GeoRow.customer_state)).map fun s =>
    PFloat.mul
      (PFloat.div (PFloat.fin (stateTotalRevenue rows s)) (PFloat.fin (stateGrandTotal rows)))
      (PFloat.fin 100)

/-- Embedding of `calculate_geographic_performance(sales_with_states)`. -/
def calculate_geographic_performance [DecidableEq κ] [LinearOrder κ]
    (sales_with_states : List (GeoRow κ)) : List (StatePerfRow κ) :=
  let keys := groupKeys (sales_with_states.map GeoRow.customer_state)
  let table := keys.map fun s =>
    let group := stateRows sales_with_states s
    let orders := nunique (group.map GeoRow.order_id)
    let customers := nunique (group.map GeoRow.customer_id)
    { state := s
      total_revenue := stateTotalRevenue sales_with_states s
      total_orders := orders
      unique_customers := customers
      revenue_per_customer := round2 (stateTotalRevenue sales_with_states s / (customers : ℚ))
      orders_per_customer := round2 ((orders : ℚ) / (customers : ℚ))
      revenue_share := pfRound2 (PFloat.mul
        (PFloat.div (PFloat.fin (stateTotalRevenue sales_with_states s))
          (PFloat.fin (stateGrandTotal sales_with_states)))
        (PFloat.fin 100)) }
  List.insertionSort (fun a b => b.total_revenue ≤ a.total_revenue) table

theorem listSum_map_fin (l : List α) (g : α → ℚ) :
    PFloat.listSum (l.map (fun a => PFloat.fin (g a))) = PFloat.fin ((l.map g).sum) := by
  induction l with
  | nil => rfl
  | cons a l ih =>
    simp only [List.map_cons, PFloat.listSum, List.foldr_cons, List.sum_cons]
    rw [show List.foldr PFloat.add (PFloat.fin 0) (l.map fun a => PFloat.fin (g a))
      = PFloat.fin ((l.map g).sum) from ih]
    rfl

theorem qsum_map_mul_right (l : List α) (g : α → ℚ) (r : ℚ) :
    (l.map fun a => g a * r).sum = (l.map g).sum * r := by
  induction l with
  | nil => simp
  | cons a l ih => simp [ih, add_mul]

theorem shareRaw_sum (keys : List α) (f : α → ℚ) (hT : (keys.map f).sum ≠ 0) :
    PFloat.listSum (keys.map fun c =>
        PFloat.mul (PFloat.div (PFloat.fin (f c)) (PFloat.fin ((keys.map f).sum)))
          (PFloat.fin 100))
      = PFloat.fin 100 := by
  have hmap : ∀ c ∈ keys,
      PFloat.mul (PFloat.div (PFloat.fin (f c)) (PFloat.fin ((keys.map f).sum)))
          (PFloat.fin 100)
        = PFloat.fin (f c * (100 / (keys.map f).sum)) := by
    intro c _
    rw [PFloat.div, if_neg hT, PFloat.mul]
    congr 1
    field_simp
  rw [List.map_congr_left hmap, listSum_map_fin, qsum_map_mul_right]
  congr 1
  field_simp

set_option maxRecDepth 8000 in
/-- C7 counterexample: three categories with revenue 10 each; the rounded
shares are 33.33 each, so the displayed `revenue_share` column of
`calculate_product_performance` sums to 99.99, not 100 (the model is exact,
so the 0.01 gap is not floating-point noise). -/
theorem revenue_share_sum_counterexample :
    PFloat.listSum ((calculate_product_performance
        [⟨1, 10, 1⟩, ⟨2, 10, 2⟩, ⟨3, 10, 3⟩]).map CategoryPerfRow.revenue_share)
      = PFloat.fin (9999 / 100)
      ∧ (9999 / 100 : ℚ) ≠ 100 := by
  constructor
  · have hf : Int.fract ((10000 : ℚ) / 3) = 1 / 3 := by
      rw [Int.fract]
      norm_num
    norm_num [calculate_product_performance, productTotalRevenue, productGrandTotal, catRows,
      groupKeys, dropDup, List.insertionSort, List.orderedInsert, nunique, round2, rne,
      pfRound2, PFloat.div, PFloat.mul, PFloat.listSum, PFloat.add, hf]
  · norm_num

/-- C7 amended: whenever the grand revenue total of the grouping is
nonzero, the revenue-share columns of `calculate_product_performance` and
`calculate_geographic_performance` sum to exactly 100 *before* their final
2-decimal rounding; the displayed (rounded) shares can miss 100 by up to
half a unit in the last place per group (see the counterexample). -/
theorem revenue_share_sum_unrounded {κ : Type} [DecidableEq κ] [LinearOrder κ]
    (cat_sales : List (CategoryRow κ)) (geo_sales : List (GeoRow κ))
    (hc : productGrandTotal cat_sales ≠ 0) (hg : stateGrandTotal geo_sales ≠ 0) :
    PFloat.listSum (productRevenueShareRaw cat_sales) = PFloat.fin 100
      ∧ PFloat.listSum (stateRevenueShareRaw geo_sales) = PFloat.fin 100 := by
  constructor
  · exact shareRaw_sum (groupKeys (cat_sales.map CategoryRow.product_category_name))
      (productTotalRevenue cat_sales) hc
  · exact shareRaw_sum (groupKeys (geo_sales.map GeoRow.customer_state))
      (stateTotalRevenue geo_sales) hg

/-- C7 witness: single-category and single-state tables with revenue 10
have nonzero grand totals, and their unrounded share columns sum to 100. -/
theorem revenue_share_sum_unrounded_witness :
    PFloat.listSum (productRevenueShareRaw [((⟨1, 10, 1⟩ : CategoryRow ℕ))]) = PFloat.fin 100
      ∧ PFloat.listSum (stateRevenueShareRaw [((⟨1, 10, 1, 1⟩ : GeoRow ℕ))]) = PFloat.fin 100 :=
  revenue_share_sum_unrounded [⟨1, 10, 1⟩] [⟨1, 10, 1, 1⟩]
    (by
      have hf : Int.fract ((1000 : ℚ)) = 0 := by
        rw [Int.fract]
        norm_num
      norm_num [productGrandTotal, productTotalRevenue, catRows, groupKeys, dropDup,
        List.insertionSort, List.orderedInsert, round2, rne, hf])
    (by norm_num [stateGrandTotal, stateTotalRevenue, stateRows, groupKeys, dropDup,
        List.insertionSort, List.orderedInsert])

/-! ## Satisfaction vs delivery speed (`business_metrics.py`,
`analyze_satisfaction_vs_delivery`; display ordering in `app.py`,
`create_delivery_satisfaction_chart`) -/

/-- The `[['order_id', 'delivery_speed', 'delivery_category',
'review_score']]` projection fed to `analyze_satisfaction_vs_delivery`. -/
structure SatDelivRow where
  order_id : ℕ
  delivery_speed : Option ℤ
  delivery_category : String
  review_score : ℤ
deriving DecidableEq, Repr

/-- A row of the grouped satisfaction-by-delivery table.  `rating_var`
models the `review_score` `std` column as the sample variance (`none` for
groups of fewer than 2 rows, where pandas' `std` is `NaN`); the source
stores the square root of this value rounded to 3 decimals, which is not
expressible in exact rational arithmetic and is not consulted by any claim
under study. -/
structure SatByDelivRow where
  delivery_category : String
  avg_rating : ℚ
  review_count : ℕ
  rating_var : Option ℚ
  satisfaction_rate : ℚ
deriving DecidableEq, Repr

/-- Embedding of `analyze_satisfaction_vs_delivery(sales_with_reviews_delivery)`:
deduplicate to one row per (order, speed, category, score), group by
delivery category (keys sorted, as groupby does), and aggregate mean/count/
variance of the scores plus the share of scores ≥ 4.  All groups of the
returned table are non-empty (every key occurs in the data). -/
def analyze_satisfaction_vs_delivery (rows : List SatDelivRow) : List SatByDelivRow :=
  let unique_orders := dropDup rows
  let keys := groupKeys (unique_orders.map SatDelivRow.delivery_category)
  keys.map fun c =>
    let group := unique_orders.filter (fun r => r.delivery_category = c)
    let scores := group.map SatDelivRow.review_score
    { delivery_category := c
      avg_rating := round3 ((scores.sum : ℚ) / (scores.length : ℚ))
      review_count := scores.length
      rating_var := if scores.length < 2 then none
        else some ((scores.map
            (fun s => ((s : ℚ) - (scores.sum : ℚ) / (scores.length : ℚ)) ^ 2)).sum
          / ((scores.length : ℚ) - 1))
      satisfaction_rate := ((group.filter (fun r => 4 ≤ r.review_score)).length : ℚ)
        / (group.length : ℚ) * 100 }

/-- Embedding of `ordered_categories` from `create_delivery_satisfaction_chart`. -/
def ordered_categories : List String := ["1-3 days", "4-7 days", "8+ days"]

/-- A row of the display table after
`set_index('delivery_category').reindex(ordered_categories).reset_index()`:
numeric columns become floats (`NaN` for a bucket absent from the data). -/
structure DisplaySatRow where
  delivery_category : String
  avg_rating : PFloat
  review_count : PFloat
  rating_var : Option ℚ
  satisfaction_rate : PFloat
deriving DecidableEq, Repr

/-- The row `reindex` produces for one requested category: the matching row
of the table when present, otherwise a row of `NaN`s under that key. -/
def reindexRow (t : List SatByDelivRow) (c : String) : DisplaySatRow :=
  match t.find? (fun row => row.delivery_category = c) with
  | some row =>
      { delivery_category := c
        avg_rating := PFloat.fin row.avg_rating
        review_count := PFloat.fin (row.review_count : ℚ)
        rating_var := row.rating_var
        satisfaction_rate := PFloat.fin row.satisfaction_rate }
  | none =>
      { delivery_category := c
        avg_rating := PFloat.nan
        review_count := PFloat.nan
        rating_var := none
        satisfaction_rate := PFloat.nan }

/-- The table as displayed by `create_delivery_satisfaction_chart`. -/
def create_delivery_satisfaction_table (t : List SatByDelivRow) : List DisplaySatRow :=
  ordered_categories.map (reindexRow t)

theorem reindexRow_category (t : List SatByDelivRow) (c : String) :
    (reindexRow t c).delivery_category = c := by
  unfold reindexRow
  cases t.find? (fun row => row.delivery_category = c) <;> rfl

/-- C8: for every input, the satisfaction-vs-delivery table produced for
display lists exactly one row per delivery-speed bucket, in the fixed
sequence "1-3 days", "4-7 days", "8+ days", regardless of the order in
which categories appear in the data. -/
theorem satisfaction_vs_delivery_display_order (rows : List SatDelivRow) :
    (create_delivery_satisfaction_table (analyze_satisfaction_vs_delivery rows)).map
        DisplaySatRow.delivery_category = ["1-3 days", "4-7 days", "8+ days"] := by
  simp [create_delivery_satisfaction_table, List.map_map, Function.comp,
    reindexRow_category, ordered_categories]

/-! ## Loader datasets and error policy (`data_loader.py`) -/

/-- A raw orders row (the columns the pipeline uses).  `purchase_year` and
`purchase_month` are the calendar fields of the purchase timestamp, carried
with the value as pandas derives them via `.dt.year` / `.dt.month`. -/
structure OrderRow where
  order_id : ℕ
  customer_id : ℕ
  order_status : String
  order_purchase_timestamp : ℤ
  purchase_year : ℕ
  purchase_month : ℕ
  order_delivered_customer_date : Option ℤ
deriving DecidableEq, Repr

/-- An orders row after `prepare_orders_data` added `year` and `month`. -/
structure PreparedOrderRow where
  order_id : ℕ
  customer_id : ℕ
  order_status : String
  order_purchase_timestamp : ℤ
  order_delivered_customer_date : Option ℤ
  year : ℕ
  month : ℕ
deriving DecidableEq, Repr

/-- A raw order-items row. -/
structure ItemRow where
  order_id : ℕ
  order_item_id : ℕ
  product_id : ℕ
  price : ℚ
deriving DecidableEq, Repr

/-- A raw products row (category may be missing). -/
structure ProductRow where
  product_id : ℕ
  product_category_name : Option String
deriving DecidableEq, Repr

/-- A raw customers row. -/
structure CustomerRow where
  customer_id : ℕ
  customer_state : String
deriving DecidableEq, Repr

/-- A raw reviews row. -/
structure ReviewsRow where
  order_id : ℕ
  review_score : ℤ
deriving DecidableEq, Repr

/-- A raw payments row (loaded but unused by the metrics). -/
structure PaymentRow where
  order_id : ℕ
deriving DecidableEq, Repr

/-- The loader's `self.datasets` mapping: each named dataset is present or
absent. -/
structure Datasets where
  orders : Option (List OrderRow)
  order_items : Option (List ItemRow)
  products : Option (List ProductRow)
  customers : Option (List CustomerRow)
  reviews : Option (List ReviewsRow)
  payments : Option (List PaymentRow)
deriving DecidableEq, Repr

/-- Embedding of `load_all_datasets()`: each dataset file is read independently; a
missing file (`none`) is skipped with a warning and loading continues with
the remaining files.  The backing directory is modelled by the same
optional per-dataset mapping. -/
def load_all_datasets (files : Datasets) : Datasets :=
  { orders := files.orders
    order_items := files.order_items
    products := files.products
    customers := files.customers
    reviews := files.reviews
    payments := files.payments }

/-- Embedding of `prepare_orders_data()`: derive `year`/`month` from the purchase
timestamp; fails with a descriptive error if the orders dataset was never
loaded. -/
def prepare_orders_data (datasets : Datasets) : Except String (List PreparedOrderRow) :=
  match datasets.orders with
  | none => .error "Orders dataset not loaded. Call load_all_datasets() first."
  | some orders => .ok (orders.map fun r =>
      { order_id := r.order_id
        customer_id := r.customer_id
        order_status := r.order_status
        order_purchase_timestamp := r.order_purchase_timestamp
        order_delivered_customer_date := r.order_delivered_customer_date
        year := r.purchase_year
        month := r.purchase_month })

/-- A row of `get_review_data`'s output: a sales row inner-joined with a
matching review. -/
structure SalesReviewRow where
  sales : SalesRow
  review_score : ℤ
deriving DecidableEq, Repr

/-- Embedding of `get_review_data(sales_data)`: fails with a descriptive error if the
reviews dataset was never loaded, otherwise inner-joins the sales rows
with the reviews on `order_id`. -/
def get_review_data (datasets : Datasets) (sales_data : List SalesRow) :
    Except String (List SalesReviewRow) :=
  match datasets.reviews with
  | none => .error "Reviews dataset required."
  | some reviews => .ok (sales_data.bind fun s =>
      (reviews.filter (fun rv => rv.order_id = s.order_id)).map
        (fun rv => ⟨s, rv.review_score⟩))

/-- C9: operations that need a dataset that was never loaded fail with the
loader's descriptive error naming that dataset (`prepare_orders_data` for
orders, `get_review_data` for reviews), while `load_all_datasets` itself
skips a missing file and still loads every other dataset. -/
theorem loader_missing_dataset_errors (ds : Datasets) (sales : List SalesRow)
    (files : Datasets) :
    (ds.orders = none →
        prepare_orders_data ds =
          Except.error "Orders dataset not loaded. Call load_all_datasets() first.")
      ∧ (ds.reviews = none →
          get_review_data ds sales = Except.error "Reviews dataset required.")
      ∧ (load_all_datasets files).orders = files.orders
      ∧ (load_all_datasets files).order_items = files.order_items
      ∧ (load_all_datasets files).products = files.products
      ∧ (load_all_datasets files).customers = files.customers
      ∧ (load_all_datasets files).reviews = files.reviews
      ∧ (load_all_datasets files).payments = files.payments := by
  refine ⟨fun h => ?_, fun h => ?_, rfl, rfl, rfl, rfl, rfl, rfl⟩
  · simp [prepare_orders_data, h]
  · simp [get_review_data, h]

/-- The loader state when no file was found. -/
def emptyDatasets : Datasets :=
  { orders := none, order_items := none, products := none, customers := none,
    reviews := none, payments := none }

/-- C9 witness: with nothing loaded, `prepare_orders_data` and
`get_review_data` fail with their descriptive errors. -/
theorem loader_missing_dataset_witness :
    prepare_orders_data emptyDatasets =
        Except.error "Orders dataset not loaded. Call load_all_datasets() first."
      ∧ get_review_data emptyDatasets [] = Except.error "Reviews dataset required." :=
  ⟨(loader_missing_dataset_errors emptyDatasets [] emptyDatasets).1 rfl,
    (loader_missing_dataset_errors emptyDatasets [] emptyDatasets).2.1 rfl⟩

/-! ## Delivery performance (`business_metrics.py`,
`calculate_delivery_performance`) -/

/-- The `[['order_id', 'delivery_speed', 'delivery_category']]` projection
fed to `calculate_delivery_performance`. -/
structure DelivRow where
  order_id : ℕ
  delivery_speed : Option ℤ
  delivery_category : String
deriving DecidableEq, Repr

/-- Embedding of `delivery_speed <= 3` on a float column: a missing speed (`NaN`)
compares false. -/
def optLe (s : Option ℤ) (b : ℤ) : Bool :=
  match s with
  | none => false
  | some v => v ≤ b

/-- Embedding of `delivery_speed > 7` on a float column: a missing speed compares
false. -/
def optGt (s : Option ℤ) (b : ℤ) : Bool :=
  match s with
  | none => false
  | some v => b < v

/-- pandas `value_counts()`: distinct values with their multiplicities,
most frequent first. -/
def valueCounts [DecidableEq α] (l : List α) : List (α × ℕ) :=
  List.insertionSort (fun a b => b.2 ≤ a.2) ((dropDup l).map (fun v => (v, l.count v)))

/-- pandas `median()` over the non-missing values: middle element of the
sorted list, or the mean of the two middle elements (`NaN` when empty).
The `getD` index is always in range; its default is never consulted. -/
def medianZ (l : List ℤ) : PFloat :=
  let s := List.insertionSort (· ≤ ·) l
  if l.length = 0 then PFloat.nan
  else if l.length % 2 = 1 then PFloat.fin ((s.getD (l.length / 2) 0 : ℤ) : ℚ)
  else PFloat.fin (((s.getD (l.length / 2 - 1) 0 + s.getD (l.length / 2) 0 : ℤ) : ℚ) / 2)

/-- The dict built by `calculate_delivery_performance`. -/
structure DeliveryMetrics where
  average_delivery_days : PFloat
  median_delivery_days : PFloat
  delivery_distribution : List (String × ℕ)
  fast_delivery_rate : PFloat
  slow_delivery_rate : PFloat
deriving DecidableEq, Repr

/-- Embedding of `calculate_delivery_performance(sales_with_delivery)`: deduplicate to
one row per (order, speed, category); mean and median skip missing speeds
(pandas `skipna`), while the fast/slow rates are means of boolean columns
over all deduplicated rows (missing speeds compare false but stay in the
denominator). -/
def calculate_delivery_performance (sales_with_delivery : List DelivRow) : DeliveryMetrics :=
  let unique_orders := dropDup sales_with_delivery
  let speeds := unique_orders.map DelivRow.delivery_speed
  let knowns := speeds.filterMap id
  { average_delivery_days := meanZ knowns
    median_delivery_days := medianZ knowns
    delivery_distribution := valueCounts (unique_orders.map DelivRow.delivery_category)
    fast_delivery_rate := if unique_orders = [] then PFloat.nan
      else PFloat.fin ((speeds.countP (fun s => optLe s 3) : ℚ)
        / (unique_orders.length : ℚ) * 100)
    slow_delivery_rate := if unique_orders = [] then PFloat.nan
      else PFloat.fin ((speeds.countP (fun s => optGt s 7) : ℚ)
        / (unique_orders.length : ℚ) * 100) }

/-- The `fast_delivery_rate` value as a rational (share of deduplicated
orders with known speed ≤ 3, over all deduplicated orders). -/
def fastRateQ (rows : List DelivRow) : ℚ :=
  ((dropDup rows).countP (fun r => optLe r.delivery_speed 3) : ℚ)
    / ((dropDup rows).length : ℚ) * 100

/-- The `slow_delivery_rate` value as a rational. -/
def slowRateQ (rows : List DelivRow) : ℚ :=
  ((dropDup rows).countP (fun r => optGt r.delivery_speed 7) : ℚ)
    / ((dropDup rows).length : ℚ) * 100

/-- The share of deduplicated orders with a known speed in (3, 7] — the
"4-7 days" bucket — over all deduplicated orders. -/
def midRateQ (rows : List DelivRow) : ℚ :=
  ((dropDup rows).countP
      (fun r => optGt r.delivery_speed 3 && optLe r.delivery_speed 7) : ℚ)
    / ((dropDup rows).length : ℚ) * 100

theorem dropDup_filter [DecidableEq α] (p : α → Bool) (l : List α) :
    dropDup (l.filter p) = (dropDup l).filter p := by
  induction l using dropDup.induct with
  | case1 => simp [dropDup]
  | case2 a l ih =>
    have hcons : dropDup (a :: l) = a :: dropDup (l.filter fun b => b ≠ a) := by
      rw [dropDup]
    by_cases hpa : p a
    · rw [List.filter_cons_of_pos hpa, hcons, List.filter_cons_of_pos hpa]
      have hswap : (l.filter p).filter (fun b => b ≠ a)
          = (l.filter fun b => b ≠ a).filter p := by
        rw [List.filter_filter, List.filter_filter]
        exact List.filter_congr fun b _ => Bool.and_comm _ _
      rw [dropDup, hswap, ih]
    · rw [List.filter_cons_of_neg hpa, hcons, List.filter_cons_of_neg hpa, ← ih]
      have : l.filter p = (l.filter fun b => b ≠ a).filter p := by
        rw [List.filter_filter]
        refine List.filter_congr fun b hb => ?_
        by_cases hba : b = a
        · subst hba
          simp [Bool.eq_false_iff.2 hpa]
        · simp [hba]
      rw [this]

theorem filterMap_speed_known (U : List DelivRow) :
    ((U.filter (fun r => r.delivery_speed.isSome)).map DelivRow.delivery_speed).filterMap id
      = (U.map DelivRow.delivery_speed).filterMap id := by
  induction U with
  | nil => rfl
  | cons a U ih =>
    rcases ha : a.delivery_speed with _ | v
    · simp [List.filter_cons, ha, ih]
    · simp [List.filter_cons, ha, ih]

theorem optLe_none (b : ℤ) : optLe none b = false := rfl

theorem optLe_some (v b : ℤ) : optLe (some v) b = decide (v ≤ b) := rfl

theorem optGt_none (b : ℤ) : optGt none b = false := rfl

theorem optGt_some (v b : ℤ) : optGt (some v) b = decide (b < v) := rfl

theorem delivSpeed_partition (l : List DelivRow) :
    l.countP (fun r => optLe r.delivery_speed 3)
      + l.countP (fun r => optGt r.delivery_speed 3 && optLe r.delivery_speed 7)
      + l.countP (fun r => optGt r.delivery_speed 7)
      + l.countP (fun r => r.delivery_speed.isNone) = l.length := by
  induction l with
  | nil => rfl
  | cons a l ih =>
    simp only [List.countP_cons, List.length_cons]
    rcases ha : a.delivery_speed with _ | v <;>
      simp only [ha, optLe_none, optLe_some, optGt_none, optGt_some, Option.isNone_none,
        Option.isNone_some, Bool.false_and]
    · simp
      omega
    · by_cases h3 : v ≤ 3
      · simp [h3, show ¬(3 < v) by omega, show ¬(7 < v) by omega]
        omega
      · by_cases h7 : v ≤ 7
        · simp [h3, h7, show (3 : ℤ) < v by omega, show ¬(7 < v) by omega]
          omega
        · simp [h3, h7, show (3 : ℤ) < v by omega, show (7 : ℤ) < v by omega]
          omega

/-- C10: in `calculate_delivery_performance`, orders with unknown delivery
speed do not affect `average_delivery_days` or `median_delivery_days`
(deleting them from the input changes neither), yet they stay in the
denominator of the fast/slow rates, so whenever at least one deduplicated
order has unknown speed, fast rate + slow rate + the share of known
4-7-day orders is strictly below 100. -/
theorem delivery_performance_unknown_handling (rows : List DelivRow) :
    ((calculate_delivery_performance rows).average_delivery_days
        = (calculate_delivery_performance
            (rows.filter (fun r => r.delivery_speed.isSome))).average_delivery_days)
      ∧ ((calculate_delivery_performance rows).median_delivery_days
        = (calculate_delivery_performance
            (rows.filter (fun r => r.delivery_speed.isSome))).median_delivery_days)
      ∧ ((∃ r ∈ dropDup rows, r.delivery_speed = none) →
          (calculate_delivery_performance rows).fast_delivery_rate
              = PFloat.fin (fastRateQ rows)
            ∧ (calculate_delivery_performance rows).slow_delivery_rate
                = PFloat.fin (slowRateQ rows)
            ∧ fastRateQ rows + slowRateQ rows + midRateQ rows < 100) := by
  have hknowns : ((dropDup (rows.filter (fun r => r.delivery_speed.isSome))).map
        DelivRow.delivery_speed).filterMap id
      = ((dropDup rows).map DelivRow.delivery_speed).filterMap id := by
    rw [dropDup_filter]
    exact filterMap_speed_known (dropDup rows)
  refine ⟨?_, ?_, ?_⟩
  · simp only [calculate_delivery_performance, hknowns]
  · simp only [calculate_delivery_performance, hknowns]
  · rintro ⟨r0, hr0, hr0n⟩
    have hne : dropDup rows ≠ [] := List.ne_nil_of_mem hr0
    have hcf : ((dropDup rows).map DelivRow.delivery_speed).countP (fun s => optLe s 3)
        = (dropDup rows).countP (fun r => optLe r.delivery_speed 3) := by
      rw [List.countP_map]
      rfl
    have hcs : ((dropDup rows).map DelivRow.delivery_speed).countP (fun s => optGt s 7)
        = (dropDup rows).countP (fun r => optGt r.delivery_speed 7) := by
      rw [List.countP_map]
      rfl
    refine ⟨?_, ?_, ?_⟩
    · simp only [calculate_delivery_performance, if_neg hne, hcf]
      rfl
    · simp only [calculate_delivery_performance, if_neg hne, hcs]
      rfl
    · have hpart := delivSpeed_partition (dropDup rows)
      have hnone : 0 < (dropDup rows).countP (fun r => r.delivery_speed.isNone) :=
        List.countP_pos.2 ⟨r0, hr0, by simp [hr0n]⟩
      have hlt : (dropDup rows).countP (fun r => optLe r.delivery_speed 3)
          + (dropDup rows).countP (fun r => optGt r.delivery_speed 7)
          + (dropDup rows).countP
              (fun r => optGt r.delivery_speed 3 && optLe r.delivery_speed 7)
          < (dropDup rows).length := by omega
      have hn : (0 : ℚ) < ((dropDup rows).length : ℚ) := by
        have := List.length_pos.2 hne
        exact_mod_cast this
      unfold fastRateQ slowRateQ midRateQ
      have hsum : ((dropDup rows).countP (fun r => optLe r.delivery_speed 3) : ℚ)
            / ((dropDup rows).length : ℚ) * 100
          + ((dropDup rows).countP (fun r => optGt r.delivery_speed 7) : ℚ)
            / ((dropDup rows).length : ℚ) * 100
          + ((dropDup rows).countP
                (fun r => optGt r.delivery_speed 3 && optLe r.delivery_speed 7) : ℚ)
            / ((dropDup rows).length : ℚ) * 100
          = (((dropDup rows).countP (fun r => optLe r.delivery_speed 3)
              + (dropDup rows).countP (fun r => optGt r.delivery_speed 7)
              + (dropDup rows).countP
                  (fun r => optGt r.delivery_speed 3 && optLe r.delivery_speed 7) : ℕ) : ℚ)
            / ((dropDup rows).length : ℚ) * 100 := by
        push_cast
        ring
      rw [hsum]
      have hdiv : (((dropDup rows).countP (fun r => optLe r.delivery_speed 3)
            + (dropDup rows).countP (fun r => optGt r.delivery_speed 7)
            + (dropDup rows).countP
                (fun r => optGt r.delivery_speed 3 && optLe r.delivery_speed 7) : ℕ) : ℚ)
          / ((dropDup rows).length : ℚ) < 1 := by
        rw [div_lt_one hn]
        exact_mod_cast hlt
      calc (((dropDup rows).countP (fun r => optLe r.delivery_speed 3)
            + (dropDup rows).countP (fun r => optGt r.delivery_speed 7)
            + (dropDup rows).countP
                (fun r => optGt r.delivery_speed 3 && optLe r.delivery_speed 7) : ℕ) : ℚ)
          / ((dropDup rows).length : ℚ) * 100 < 1 * 100 := by
            exact mul_lt_mul_of_pos_right hdiv (by norm_num)
        _ = 100 := one_mul _

/-- C10 witness: one known 1-day order and one order with unknown speed:
the three rates sum below 100. -/
theorem delivery_performance_witness :
    fastRateQ [⟨1, some 1, "1-3 days"⟩, ⟨2, none, "Unknown"⟩]
        + slowRateQ [⟨1, some 1, "1-3 days"⟩, ⟨2, none, "Unknown"⟩]
        + midRateQ [⟨1, some 1, "1-3 days"⟩, ⟨2, none, "Unknown"⟩] < 100 :=
  ((delivery_performance_unknown_handling [⟨1, some 1, "1-3 days"⟩, ⟨2, none, "Unknown"⟩]).2.2
    ⟨⟨2, none, "Unknown"⟩, by simp [dropDup], rfl⟩).2.2
